import Mathlib

/-!
Verification of the `ouh` on-chain program (programs/ouh/src/lib.rs).

The five instruction handlers are embedded as pure Lean functions over the
three record types (`Config`, `UserAccount`, `TransactionAccount`).  Machine
integers are modelled as `Nat` (u64/u16 values) and `Int` (i64 timestamps);
`checked_add` makes the u64 overflow bound explicit.  The fixed-size byte
keys (phone `[u8; 14]`, tx id `[u8; 16]`, 32-byte principals and hashes) are
modelled as `Nat` stand-ins: the handlers never inspect their contents, only
compare them for equality and use them as record keys.

On top of the handler functions, `step` gives the invocation-level
semantics over a `State` holding the records at their derived addresses:
the host refuses a create on an existing address and a load of a missing
record, and it rolls back every write of a failed invocation (`exec`
returns the pre-state on error).  A `.unwrap()` on `None` in the Rust is a
panic that aborts the invocation; it is modelled as the error
`ProgError.panicked`, distinct from every `OuhError` code.
-/

namespace Ouh

/-- Stand-in for a 32-byte principal (`Pubkey`); treated as an atom. -/
abbrev Pubkey := Nat

/-- Stand-in for the 14-byte phone number key (`[u8; 14]`); treated as an atom. -/
abbrev Phone := Nat

/-- Stand-in for the 16-byte transaction id (`[u8; 16]`); treated as an atom. -/
abbrev TxId := Nat

/-- Stand-in for the 32-byte credential hash (`[u8; 32]`); treated as an atom. -/
abbrev PinHash := Nat

/-- Largest u64 value. -/
def u64Max : Nat := 2 ^ 64 - 1

/-- `UserStatus` enum from the source. -/
inductive UserStatus
  | Active
  | Suspended
deriving DecidableEq

/-- `TransactionType` enum from the source. -/
inductive TransactionType
  | Crypto
  | Airtime
deriving DecidableEq

/-- `TransactionStatus` enum from the source. -/
inductive TransactionStatus
  | Pending
  | Completed
  | Failed
deriving DecidableEq

/-- `UserAccount` record from the source. -/
structure UserAccount where
  phone_number : Phone
  wallet : Pubkey
  pin_hash : PinHash
  total_volume : Nat
  registered_at : Int
  status : UserStatus
deriving DecidableEq

/-- `TransactionAccount` record from the source. -/
structure TransactionAccount where
  tx_id : TxId
  user_phone : Phone
  tx_type : TransactionType
  amount_ngn : Nat
  amount_usdc : Option Nat
  status : TransactionStatus
  timestamp : Int
  fee : Nat
deriving DecidableEq

/-- `Config` record from the source. -/
structure Config where
  admin : Pubkey
  crypto_fee_bps : Nat
  airtime_fee_bps : Nat
  min_limit : Nat
  max_limit : Nat
  paused : Bool
deriving DecidableEq

/-- The `#[error_code]` enum `OuhError` from the source: exactly these six codes. -/
inductive OuhError
  | InvalidPhoneFormat
  | TransactionLimitOutOfBounds
  | ContractPaused
  | UserSuspended
  | InsufficientBalance
  | InvalidPin
deriving DecidableEq

/-- How a handler body can fail: with a named `OuhError` code, or by a Rust
panic (the `.unwrap()` on `checked_add`), which aborts the invocation without
a named code. -/
inductive ProgError
  | ouh (e : OuhError)
  | panicked
deriving DecidableEq

/-- `u64::checked_add`: the sum when it fits in a u64, `none` on wrap. -/
def checked_add (a b : Nat) : Option Nat :=
  if a + b ≤ u64Max then some (a + b) else none

/-- Handler body of `initialize_config`: writes every `Config` field from the
inputs, `admin` from the signer, `paused := false`.  The body performs no
validation and cannot fail. -/
def initialize_config (admin : Pubkey) (crypto_fee_bps airtime_fee_bps : Nat)
    (min_limit max_limit : Nat) : Config :=
  { admin := admin
    crypto_fee_bps := crypto_fee_bps
    airtime_fee_bps := airtime_fee_bps
    min_limit := min_limit
    max_limit := max_limit
    paused := false }

/-- Handler body of `register_user`: writes every `UserAccount` field;
`wallet` from the signer, `registered_at` from the host clock.  The body
performs no validation and cannot fail. -/
def register_user (signer : Pubkey) (now : Int) (phone_number : Phone)
    (pin_hash : PinHash) : UserAccount :=
  { phone_number := phone_number
    wallet := signer
    pin_hash := pin_hash
    total_volume := 0
    registered_at := now
    status := UserStatus.Active }

/-- Handler body of `create_transaction`: paused check, then limit check,
then user-status check, then the new `TransactionAccount` is written from the
inputs with `status := Pending` and the host clock as timestamp. -/
def create_transaction (config : Config) (user_account : UserAccount) (now : Int)
    (tx_id : TxId) (user_phone : Phone) (tx_type : TransactionType)
    (amount_ngn : Nat) (amount_usdc : Option Nat) (fee : Nat) :
    Except ProgError TransactionAccount :=
  if config.paused then
    Except.error (ProgError.ouh OuhError.ContractPaused)
  else if amount_ngn < config.min_limit ∨ config.max_limit < amount_ngn then
    Except.error (ProgError.ouh OuhError.TransactionLimitOutOfBounds)
  else if user_account.status ≠ UserStatus.Active then
    Except.error (ProgError.ouh OuhError.UserSuspended)
  else
    Except.ok
      { tx_id := tx_id
        user_phone := user_phone
        tx_type := tx_type
        amount_ngn := amount_ngn
        amount_usdc := amount_usdc
        status := TransactionStatus.Pending
        timestamp := now
        fee := fee }

/-- Handler body of `complete_transaction`: sets the transaction status to
`Completed` and credits `amount_ngn` to the user with
`checked_add(..).unwrap()`.  No status guard is performed.  On overflow the
`unwrap` panics and the invocation aborts with no write persisting. -/
def complete_transaction (transaction : TransactionAccount)
    (user_account : UserAccount) :
    Except ProgError (TransactionAccount × UserAccount) :=
  let transaction := { transaction with status := TransactionStatus.Completed }
  match checked_add user_account.total_volume transaction.amount_ngn with
  | some v => Except.ok (transaction, { user_account with total_volume := v })
  | none => Except.error ProgError.panicked

/-- Handler body of `get_user_balance`: returns `total_volume`; read-only,
never fails, does not read the `Config`. -/
def get_user_balance (user_account : UserAccount) : Except ProgError Nat :=
  Except.ok user_account.total_volume

/-- `UserAccount::LEN` from the source. -/
def UserAccount.LEN : Nat := 8 + 14 + 32 + 32 + 8 + 8 + 1

/-- `TransactionAccount::LEN` from the source. -/
def TransactionAccount.LEN : Nat := 8 + 16 + 14 + 1 + 8 + 9 + 1 + 8 + 8

/-- `Config::LEN` from the source. -/
def Config.LEN : Nat := 8 + 32 + 2 + 2 + 8 + 8 + 1

/-! ## Serialization

Per record, the on-chain bytes are the 8-byte type discriminator followed by
the fields in declaration order: little-endian integers, a 1-byte presence
tag on option fields, one byte per enum ordinal.  The serializers below give
the field bytes; the discriminator contributes a further 8 bytes. -/

/-- `n` little-endian bytes of `v` (mod `256 ^ n`). -/
def natToLeBytes : Nat → Nat → List Nat
  | 0, _ => []
  | n + 1, v => v % 256 :: natToLeBytes n (v / 256)

/-- An i64 as 8 little-endian two-complement bytes. -/
def i64ToLeBytes (v : Int) : List Nat :=
  natToLeBytes 8 (v % (2 ^ 64)).toNat

/-- Byte ordinal of `UserStatus` (Active = 0, Suspended = 1). -/
def UserStatus.toByte : UserStatus → Nat
  | UserStatus.Active => 0
  | UserStatus.Suspended => 1

/-- Byte ordinal of `TransactionType` (Crypto = 0, Airtime = 1). -/
def TransactionType.toByte : TransactionType → Nat
  | TransactionType.Crypto => 0
  | TransactionType.Airtime => 1

/-- Byte ordinal of `TransactionStatus` (Pending = 0, Completed = 1, Failed = 2). -/
def TransactionStatus.toByte : TransactionStatus → Nat
  | TransactionStatus.Pending => 0
  | TransactionStatus.Completed => 1
  | TransactionStatus.Failed => 2

/-- An `Option<u64>`: presence byte, then the 8 value bytes when present. -/
def serializeOptionU64 : Option Nat → List Nat
  | none => [0]
  | some v => 1 :: natToLeBytes 8 v

/-- Field bytes of a `UserAccount`: phone (14), wallet (32), pin hash (32),
total_volume (8), registered_at (8), status (1). -/
def serializeUserAccount (u : UserAccount) : List Nat :=
  natToLeBytes 14 u.phone_number ++ natToLeBytes 32 u.wallet ++
  natToLeBytes 32 u.pin_hash ++ natToLeBytes 8 u.total_volume ++
  i64ToLeBytes u.registered_at ++ [u.status.toByte]

/-- Field bytes of a `TransactionAccount`: tx id (16), phone (14), type (1),
amount_ngn (8), amount_usdc (1 or 9), status (1), timestamp (8), fee (8). -/
def serializeTransactionAccount (t : TransactionAccount) : List Nat :=
  natToLeBytes 16 t.tx_id ++ natToLeBytes 14 t.user_phone ++
  [t.tx_type.toByte] ++ natToLeBytes 8 t.amount_ngn ++
  serializeOptionU64 t.amount_usdc ++ [t.status.toByte] ++
  i64ToLeBytes t.timestamp ++ natToLeBytes 8 t.fee

/-- Field bytes of a `Config`: admin (32), two fee rates (2 each),
min and max limit (8 each), paused (1). -/
def serializeConfig (c : Config) : List Nat :=
  natToLeBytes 32 c.admin ++ natToLeBytes 2 c.crypto_fee_bps ++
  natToLeBytes 2 c.airtime_fee_bps ++ natToLeBytes 8 c.min_limit ++
  natToLeBytes 8 c.max_limit ++ [if c.paused then 1 else 0]

/-! ## Invocation-level semantics

The host resolves each referenced record at its derived address (keys are
injective per tag, so `State` indexes records directly by key), refuses a
create on an occupied address and a load of a missing record, invokes the
handler body, and either persists every write or — on any failure — rolls
all of them back. -/

/-- The persistent records, indexed by their derivation keys. -/
structure State where
  config : Option Config
  users : Phone → Option UserAccount
  txs : TxId → Option TransactionAccount

/-- Failure of an invocation: the handler body failed, or a host account
constraint (create on an existing address, load of a missing record) failed
before the body ran. -/
inductive StepError
  | prog (e : ProgError)
  | host
deriving DecidableEq

/-- `s` with the user record at `p` set to `u`. -/
def setUser (s : State) (p : Phone) (u : UserAccount) : State :=
  { s with users := fun q => if q = p then some u else s.users q }

/-- `s` with the transaction record at `t` set to `tx`. -/
def setTx (s : State) (t : TxId) (tx : TransactionAccount) : State :=
  { s with txs := fun q => if q = t then some tx else s.txs q }

/-- One invocation of each of the five entry points, with its arguments.
`now` is the host clock observed by the invocation. -/
inductive Op
  | initialize_config (admin : Pubkey) (crypto_fee_bps airtime_fee_bps : Nat)
      (min_limit max_limit : Nat)
  | register_user (signer : Pubkey) (now : Int) (phone : Phone) (pin : PinHash)
  | create_transaction (now : Int) (tx_id : TxId) (user_phone : Phone)
      (tx_type : TransactionType) (amount_ngn : Nat) (amount_usdc : Option Nat)
      (fee : Nat)
  | complete_transaction (tx_id : TxId)
  | get_user_balance (phone : Phone)

/-- Effect of one invocation on the state, or the failure that aborts it. -/
def step (s : State) : Op → Except StepError State
  | Op.initialize_config admin cfb afb mn mx =>
    match s.config with
    | some _ => Except.error StepError.host
    | none =>
      Except.ok { s with config := some (initialize_config admin cfb afb mn mx) }
  | Op.register_user signer now phone pin =>
    match s.users phone with
    | some _ => Except.error StepError.host
    | none => Except.ok (setUser s phone (register_user signer now phone pin))
  | Op.create_transaction now tx_id user_phone ty amt usdc fee =>
    match s.txs tx_id, s.users user_phone, s.config with
    | none, some user, some config =>
      match create_transaction config user now tx_id user_phone ty amt usdc fee with
      | Except.ok tx => Except.ok (setTx s tx_id tx)
      | Except.error e => Except.error (StepError.prog e)
    | _, _, _ => Except.error StepError.host
  | Op.complete_transaction tx_id =>
    match s.txs tx_id with
    | none => Except.error StepError.host
    | some tx =>
      match s.users tx.user_phone with
      | none => Except.error StepError.host
      | some user =>
        match complete_transaction tx user with
        | Except.ok (tx2, user2) =>
          Except.ok (setUser (setTx s tx_id tx2) tx.user_phone user2)
        | Except.error e => Except.error (StepError.prog e)
  | Op.get_user_balance phone =>
    match s.users phone with
    | none => Except.error StepError.host
    | some _ => Except.ok s

/-- The state after an invocation: its writes on success, the unchanged
pre-state when the host rolls the failed invocation back. -/
def exec (s : State) (op : Op) : State :=
  match step s op with
  | Except.ok s2 => s2
  | Except.error _ => s

/-- The state after a sequence of invocations. -/
def execs (s : State) (ops : List Op) : State :=
  ops.foldl exec s

/-! ## Concrete fixtures used by witnesses and counterexamples -/

/-- The state before any invocation: no record exists. -/
def emptyState : State :=
  { config := none, users := fun _ => none, txs := fun _ => none }

/-- A configuration with `paused = false`, limits `[10, 1000]`. -/
def cfgOpen : Config :=
  { admin := 0, crypto_fee_bps := 100, airtime_fee_bps := 50,
    min_limit := 10, max_limit := 1000, paused := false }

/-- The same configuration with `paused = true`. -/
def cfgPaused : Config :=
  { cfgOpen with paused := true }

/-- An active user at phone key 7 with volume 0. -/
def userActive : UserAccount :=
  { phone_number := 7, wallet := 1, pin_hash := 2, total_volume := 0,
    registered_at := 0, status := UserStatus.Active }

/-- An active user at phone key 2 with volume 10. -/
def userTen : UserAccount :=
  { phone_number := 2, wallet := 5, pin_hash := 6, total_volume := 10,
    registered_at := 0, status := UserStatus.Active }

/-- An active user at phone key 2 whose volume is already the u64 maximum. -/
def userMaxed : UserAccount :=
  { phone_number := 2, wallet := 5, pin_hash := 6, total_volume := u64Max,
    registered_at := 0, status := UserStatus.Active }

/-- A transaction for user 2 with amount 3 already in the terminal state
`Completed`. -/
def txDone : TransactionAccount :=
  { tx_id := 1, user_phone := 2, tx_type := TransactionType.Airtime,
    amount_ngn := 3, amount_usdc := none, status := TransactionStatus.Completed,
    timestamp := 0, fee := 0 }

/-- A pending transaction for user 2 with amount 3. -/
def txPend : TransactionAccount :=
  { txDone with status := TransactionStatus.Pending }

/-- A pending crypto transaction with `amount_usdc` absent. -/
def txCryptoNoUsdc : TransactionAccount :=
  { tx_id := 9, user_phone := 7, tx_type := TransactionType.Crypto,
    amount_ngn := 500, amount_usdc := none,
    status := TransactionStatus.Pending, timestamp := 0, fee := 5 }

/-- A state holding `cfgOpen`, `userTen` at phone 2 and the pending `txPend`
at tx id 1. -/
def stateTen : State :=
  { config := some cfgOpen
    users := fun p => if p = 2 then some userTen else none
    txs := fun t => if t = 1 then some txPend else none }

/-- A state holding `cfgOpen` and `userMaxed` at phone 2 with the pending
`txPend` at tx id 1. -/
def stateMaxed : State :=
  { stateTen with users := fun p => if p = 2 then some userMaxed else none }

/-! ## Helper lemmas -/

theorem natToLeBytes_length (n : Nat) : ∀ v : Nat, (natToLeBytes n v).length = n := by
  induction n with
  | zero => intro v; rfl
  | succ n ih => intro v; simp [natToLeBytes, ih]

/-! ## Claims -/

/-- C1: counterexample.  The claim says `complete_transaction` fails with
InvalidTransition when the transaction status is not `Pending` and leaves
`total_volume` unchanged on the second call.  On a transaction whose status
is already `Completed`, the handler instead succeeds and credits the amount
again: `OuhError` has no InvalidTransition code and the handler body performs
no status check. -/
theorem complete_no_terminal_guard_cex :
    txDone.status ≠ TransactionStatus.Pending ∧
    complete_transaction txDone userTen =
      Except.ok (txDone, { userTen with total_volume := 13 }) ∧
    ({ userTen with total_volume := 13 }).total_volume ≠ userTen.total_volume := by
  refine ⟨by decide, rfl, by decide⟩

/-- C1 (amended): `complete_transaction` performs no status guard.  For any
current status, when the credit does not overflow it succeeds, sets the
status to `Completed` and adds `amount_ngn` to `total_volume`; applying it a
second time succeeds again and adds `amount_ngn` a second time. -/
theorem complete_transaction_ignores_status (tx : TransactionAccount)
    (u : UserAccount) (h : u.total_volume + 2 * tx.amount_ngn ≤ u64Max) :
    complete_transaction tx u =
      Except.ok ({ tx with status := TransactionStatus.Completed },
        { u with total_volume := u.total_volume + tx.amount_ngn }) ∧
    complete_transaction { tx with status := TransactionStatus.Completed }
        { u with total_volume := u.total_volume + tx.amount_ngn } =
      Except.ok ({ tx with status := TransactionStatus.Completed },
        { u with total_volume := u.total_volume + tx.amount_ngn + tx.amount_ngn }) := by
  have h1 : u.total_volume + tx.amount_ngn ≤ u64Max := by omega
  have h2 : u.total_volume + tx.amount_ngn + tx.amount_ngn ≤ u64Max := by omega
  constructor
  · simp [complete_transaction, checked_add, h1]
  · simp [complete_transaction, checked_add, h2]

/-- C1 (amended), witnessed at a pending transaction of amount 3 against a
user with volume 10: both applications succeed, volumes 13 then 16. -/
theorem complete_transaction_ignores_status_witness :
    complete_transaction txPend userTen =
      Except.ok ({ txPend with status := TransactionStatus.Completed },
        { userTen with total_volume := userTen.total_volume + txPend.amount_ngn }) ∧
    complete_transaction { txPend with status := TransactionStatus.Completed }
        { userTen with total_volume := userTen.total_volume + txPend.amount_ngn } =
      Except.ok ({ txPend with status := TransactionStatus.Completed },
        { userTen with total_volume :=
            userTen.total_volume + txPend.amount_ngn + txPend.amount_ngn }) :=
  complete_transaction_ignores_status txPend userTen (by decide)

/-- C2: counterexample.  The claim says the overflowing credit fails with
the error code ArithmeticOverflow.  The code instead calls
`checked_add(..).unwrap()`: on overflow it panics, and the failure carries
none of the `OuhError` codes (the `#[error_code]` enum has exactly six
variants, none of them an arithmetic code). -/
theorem complete_overflow_panics_cex :
    complete_transaction txPend userMaxed = Except.error ProgError.panicked ∧
    ProgError.panicked ≠ ProgError.ouh OuhError.InvalidPhoneFormat ∧
    ProgError.panicked ≠ ProgError.ouh OuhError.TransactionLimitOutOfBounds ∧
    ProgError.panicked ≠ ProgError.ouh OuhError.ContractPaused ∧
    ProgError.panicked ≠ ProgError.ouh OuhError.UserSuspended ∧
    ProgError.panicked ≠ ProgError.ouh OuhError.InsufficientBalance ∧
    ProgError.panicked ≠ ProgError.ouh OuhError.InvalidPin := by
  refine ⟨rfl, by decide, by decide, by decide, by decide, by decide, by decide⟩

/-- C2 (amended): when `user.total_volume + transaction.amount_ngn` exceeds
the u64 maximum, `complete_transaction` aborts by panic (unwrap of `None`),
not with a named error code; the aborted invocation persists no write, so
neither record is mutated. -/
theorem complete_overflow_panics_no_write (tx : TransactionAccount)
    (u : UserAccount) (h : u64Max < u.total_volume + tx.amount_ngn) :
    complete_transaction tx u = Except.error ProgError.panicked ∧
    (∀ (s : State) (tid : TxId), s.txs tid = some tx →
      s.users tx.user_phone = some u →
      exec s (Op.complete_transaction tid) = s) := by
  have hnot : ¬ u.total_volume + tx.amount_ngn ≤ u64Max := by omega
  constructor
  · simp [complete_transaction, checked_add, hnot]
  · intro s tid h1 h2
    simp [exec, step, h1, h2, complete_transaction, checked_add, hnot]

/-- C2 (amended), witnessed at a user whose volume is the u64 maximum and a
pending transaction of amount 3, inside a concrete state: the invocation
panics and the state is unchanged. -/
theorem complete_overflow_panics_no_write_witness :
    complete_transaction txPend userMaxed = Except.error ProgError.panicked ∧
    exec stateMaxed (Op.complete_transaction 1) = stateMaxed := by
  refine ⟨(complete_overflow_panics_no_write txPend userMaxed (by decide)).1, ?_⟩
  exact (complete_overflow_panics_no_write txPend userMaxed
    (by decide)).2 stateMaxed 1 rfl rfl

/-- C3: counterexample.  The claim says `create_transaction` fails with
InvalidInput when kind = Crypto and `amount_usdc` is absent.  The code has no
such check (and no InvalidInput code): the call below succeeds and creates a
Crypto transaction record with `amount_usdc = none`, refuting the claimed
record invariant as well. -/
theorem create_no_kind_amount_guard_cex :
    create_transaction cfgOpen userActive 0 9 7 TransactionType.Crypto 500 none 5 =
      Except.ok txCryptoNoUsdc ∧
    txCryptoNoUsdc.tx_type = TransactionType.Crypto ∧
    txCryptoNoUsdc.amount_usdc = none := by
  refine ⟨rfl, rfl, rfl⟩

/-- C3 (amended): `create_transaction` performs no kind/amount agreement
check: for every combination of `tx_type` and `amount_usdc` — including
Crypto with an absent and Airtime with a present stable amount — a call that
passes the paused, limit and user-status guards succeeds, and records
`amount_usdc` verbatim. -/
theorem create_transaction_records_usdc_verbatim (config : Config)
    (u : UserAccount) (now : Int) (tx_id : TxId) (user_phone : Phone)
    (ty : TransactionType) (amt : Nat) (usdc : Option Nat) (fee : Nat)
    (hp : config.paused = false) (hlo : config.min_limit ≤ amt)
    (hhi : amt ≤ config.max_limit) (hact : u.status = UserStatus.Active) :
    create_transaction config u now tx_id user_phone ty amt usdc fee =
      Except.ok
        { tx_id := tx_id, user_phone := user_phone, tx_type := ty,
          amount_ngn := amt, amount_usdc := usdc,
          status := TransactionStatus.Pending, timestamp := now, fee := fee } := by
  have hlim : ¬ (amt < config.min_limit ∨ config.max_limit < amt) := by omega
  simp [create_transaction, hp, hlim, hact]

/-- C3 (amended), witnessed at an Airtime transaction carrying a present
stable amount: it succeeds and the record keeps `some 30`. -/
theorem create_transaction_records_usdc_verbatim_witness :
    create_transaction cfgOpen userActive 0 11 7 TransactionType.Airtime 500
        (some 30) 5 =
      Except.ok
        { tx_id := 11, user_phone := 7, tx_type := TransactionType.Airtime,
          amount_ngn := 500, amount_usdc := some 30,
          status := TransactionStatus.Pending, timestamp := 0, fee := 5 } :=
  create_transaction_records_usdc_verbatim cfgOpen userActive 0 11 7
    TransactionType.Airtime 500 (some 30) 5 rfl (by decide) (by decide) rfl

/-- C4: counterexample.  The claim says `configure` accepts only inputs with
fee rates at most 10000 and `min_limit ≤ max_limit`.  The handler performs no
input validation: with fee rate 20000 and limits (10, 1) it still succeeds —
also at the invocation level from the empty state — and the resulting
reachable `Config` violates both claimed invariants. -/
theorem config_accepts_invalid_inputs_cex :
    initialize_config 0 20000 20000 10 1 =
      { admin := 0, crypto_fee_bps := 20000, airtime_fee_bps := 20000,
        min_limit := 10, max_limit := 1, paused := false } ∧
    ¬ (initialize_config 0 20000 20000 10 1).min_limit ≤
        (initialize_config 0 20000 20000 10 1).max_limit ∧
    ¬ (initialize_config 0 20000 20000 10 1).crypto_fee_bps ≤ 10000 ∧
    (step emptyState (Op.initialize_config 0 20000 20000 10 1)).isOk = true := by
  refine ⟨rfl, by decide, by decide, rfl⟩

/-- C4 (amended): `initialize_config` validates nothing: every input tuple
is accepted verbatim (admin from the signer, `paused := false`), and at the
invocation level any such call succeeds whenever no `Config` exists yet. -/
theorem initialize_config_writes_verbatim (admin : Pubkey)
    (cfb afb mn mx : Nat) (s : State) (h : s.config = none) :
    initialize_config admin cfb afb mn mx =
      { admin := admin, crypto_fee_bps := cfb, airtime_fee_bps := afb,
        min_limit := mn, max_limit := mx, paused := false } ∧
    step s (Op.initialize_config admin cfb afb mn mx) =
      Except.ok { s with config := some (initialize_config admin cfb afb mn mx) } :=
  ⟨rfl, by simp [step, h]⟩

/-- C4 (amended), witnessed from the empty state with out-of-spec inputs. -/
theorem initialize_config_writes_verbatim_witness :
    initialize_config 0 20000 20000 10 1 =
      { admin := 0, crypto_fee_bps := 20000, airtime_fee_bps := 20000,
        min_limit := 10, max_limit := 1, paused := false } ∧
    step emptyState (Op.initialize_config 0 20000 20000 10 1) =
      Except.ok
        { emptyState with config := some (initialize_config 0 20000 20000 10 1) } :=
  initialize_config_writes_verbatim 0 20000 20000 10 1 emptyState rfl

/-- C5: counterexample.  The claim says the Transaction allocation constant
is 64 bytes; `TransactionAccount::LEN` is `8+16+14+1+8+9+1+8+8 = 73`. -/
theorem transaction_len_not_64 :
    TransactionAccount.LEN = 73 ∧ TransactionAccount.LEN ≠ 64 := by
  decide

/-- C5 (amended): the allocation constants are User 103, Transaction 73 and
Config 61 bytes, each 8 discriminator bytes plus the serialized fields; a
Transaction serializes to the full 73 bytes when `amount_usdc` is present
and to 65 bytes when absent (the constant allocates the maximum). -/
theorem record_len_constants :
    UserAccount.LEN = 103 ∧ TransactionAccount.LEN = 73 ∧ Config.LEN = 61 ∧
    (∀ u : UserAccount, 8 + (serializeUserAccount u).length = UserAccount.LEN) ∧
    (∀ c : Config, 8 + (serializeConfig c).length = Config.LEN) ∧
    (∀ t : TransactionAccount,
      8 + (serializeTransactionAccount t).length =
        if t.amount_usdc.isSome then TransactionAccount.LEN else 65) := by
  refine ⟨by decide, by decide, by decide, ?_, ?_, ?_⟩
  · intro u
    simp [serializeUserAccount, i64ToLeBytes, natToLeBytes_length, UserAccount.LEN]
  · intro c
    simp [serializeConfig, natToLeBytes_length, Config.LEN]
  · intro t
    cases ht : t.amount_usdc <;>
      simp [serializeTransactionAccount, serializeOptionU64, i64ToLeBytes,
        natToLeBytes_length, TransactionAccount.LEN, ht]

/-- C6: on a non-paused configuration, `create_transaction` fails with
TransactionLimitOutOfBounds exactly when the amount is below `min_limit` or
above `max_limit`; the boundary amounts `min_limit` and `max_limit` pass
(succeeding outright for an active user), while `min_limit - 1` and
`max_limit + 1` fail with that code. -/
theorem limit_guard_exact (config : Config) (u : UserAccount) (now : Int)
    (tx_id : TxId) (user_phone : Phone) (ty : TransactionType)
    (usdc : Option Nat) (fee : Nat) (hp : config.paused = false) :
    (∀ amt : Nat,
      create_transaction config u now tx_id user_phone ty amt usdc fee =
          Except.error (ProgError.ouh OuhError.TransactionLimitOutOfBounds) ↔
        (amt < config.min_limit ∨ config.max_limit < amt)) ∧
    (u.status = UserStatus.Active → config.min_limit ≤ config.max_limit →
      (create_transaction config u now tx_id user_phone ty config.min_limit
          usdc fee).isOk = true ∧
      (create_transaction config u now tx_id user_phone ty config.max_limit
          usdc fee).isOk = true) ∧
    (0 < config.min_limit →
      create_transaction config u now tx_id user_phone ty
          (config.min_limit - 1) usdc fee =
        Except.error (ProgError.ouh OuhError.TransactionLimitOutOfBounds)) ∧
    (config.max_limit < u64Max →
      create_transaction config u now tx_id user_phone ty
          (config.max_limit + 1) usdc fee =
        Except.error (ProgError.ouh OuhError.TransactionLimitOutOfBounds)) := by
  refine ⟨?_, ?_, ?_, ?_⟩
  · intro amt
    by_cases hlim : amt < config.min_limit ∨ config.max_limit < amt
    · simp [create_transaction, hp, hlim]
    · by_cases hact : u.status = UserStatus.Active
      · simp [create_transaction, hp, hlim, hact]
      · simp [create_transaction, hp, hlim, hact]
  · intro hact hmm
    have hA : ¬ config.max_limit < config.min_limit := by omega
    constructor
    · simp [create_transaction, hp, hA, hact, Except.isOk, Except.toBool]
    · simp [create_transaction, hp, hA, hact, Except.isOk, Except.toBool]
  · intro hpos
    have h1 : config.min_limit - 1 < config.min_limit := by omega
    simp [create_transaction, hp, h1]
  · intro hmax
    have hor : config.max_limit + 1 < config.min_limit ∨
        config.max_limit < config.max_limit + 1 := Or.inr (by omega)
    simp [create_transaction, hp, hor]

/-- C6, witnessed on `cfgOpen` (limits `[10, 1000]`): amount 9 fails with
TransactionLimitOutOfBounds, amounts 10 and 1000 pass, 1001 fails. -/
theorem limit_guard_exact_witness :
    create_transaction cfgOpen userActive 0 1 7 TransactionType.Airtime 9
        none 0 =
      Except.error (ProgError.ouh OuhError.TransactionLimitOutOfBounds) ∧
    (create_transaction cfgOpen userActive 0 1 7 TransactionType.Airtime 10
        none 0).isOk = true ∧
    (create_transaction cfgOpen userActive 0 1 7 TransactionType.Airtime 1000
        none 0).isOk = true ∧
    create_transaction cfgOpen userActive 0 1 7 TransactionType.Airtime 1001
        none 0 =
      Except.error (ProgError.ouh OuhError.TransactionLimitOutOfBounds) := by
  have h := limit_guard_exact cfgOpen userActive 0 1 7 TransactionType.Airtime
    none 0 rfl
  refine ⟨(h.1 9).2 ?_, (h.2.1 rfl ?_).1, (h.2.1 rfl ?_).2, (h.1 1001).2 ?_⟩
  · exact Or.inl (by decide)
  · decide
  · decide
  · exact Or.inr (by decide)

/-- C7: on a paused configuration, `create_transaction` fails with
ContractPaused and, at the invocation level, creates no record (the state is
unchanged); `get_user_balance` ignores the configuration entirely and still
returns `total_volume`. -/
theorem paused_blocks_create_not_reads (config : Config) (u : UserAccount)
    (now : Int) (tx_id : TxId) (user_phone : Phone) (ty : TransactionType)
    (amt : Nat) (usdc : Option Nat) (fee : Nat) (hp : config.paused = true) :
    create_transaction config u now tx_id user_phone ty amt usdc fee =
      Except.error (ProgError.ouh OuhError.ContractPaused) ∧
    (∀ s : State, s.config = some config → s.txs tx_id = none →
      s.users user_phone = some u →
      exec s (Op.create_transaction now tx_id user_phone ty amt usdc fee) = s) ∧
    get_user_balance u = Except.ok u.total_volume := by
  refine ⟨by simp [create_transaction, hp], ?_, rfl⟩
  intro s h1 h2 h3
  simp [exec, step, h1, h2, h3, create_transaction, hp]

/-- C7, witnessed on the paused configuration: create fails with
ContractPaused while the balance read still answers. -/
theorem paused_blocks_create_not_reads_witness :
    create_transaction cfgPaused userActive 0 1 7 TransactionType.Airtime 500
        none 0 =
      Except.error (ProgError.ouh OuhError.ContractPaused) ∧
    get_user_balance userActive = Except.ok userActive.total_volume := by
  have h := paused_blocks_create_not_reads cfgPaused userActive 0 1 7
    TransactionType.Airtime 500 none 0 rfl
  exact ⟨h.1, h.2.2⟩

/-- Any single invocation keeps every existing user present and never
decreases its `total_volume`. -/
theorem exec_users_mono (s : State) (op : Op) (p : Phone) (u : UserAccount)
    (h : s.users p = some u) :
    ∃ u2, (exec s op).users p = some u2 ∧ u.total_volume ≤ u2.total_volume := by
  cases op with
  | initialize_config admin cfb afb mn mx =>
    cases hc : s.config with
    | some c => exact ⟨u, by simp [exec, step, hc, h], le_refl _⟩
    | none => exact ⟨u, by simp [exec, step, hc, h], le_refl _⟩
  | register_user signer now phone pin =>
    cases hup : s.users phone with
    | some u1 => exact ⟨u, by simp [exec, step, hup, h], le_refl _⟩
    | none =>
      have hpp : p ≠ phone := by
        intro he
        rw [he, hup] at h
        exact Option.noConfusion h
      exact ⟨u, by simp [exec, step, hup, setUser, hpp, h], le_refl _⟩
  | create_transaction now tx_id user_phone ty amt usdc fee =>
    cases htx : s.txs tx_id with
    | some tx => exact ⟨u, by simp [exec, step, htx, h], le_refl _⟩
    | none =>
      cases hup : s.users user_phone with
      | none => exact ⟨u, by simp [exec, step, htx, hup, h], le_refl _⟩
      | some user =>
        cases hc : s.config with
        | none => exact ⟨u, by simp [exec, step, htx, hup, hc, h], le_refl _⟩
        | some config =>
          cases hcr : create_transaction config user now tx_id user_phone ty
              amt usdc fee with
          | error e =>
            exact ⟨u, by simp [exec, step, htx, hup, hc, hcr, h], le_refl _⟩
          | ok tx =>
            exact ⟨u, by simp [exec, step, htx, hup, hc, hcr, setTx, h],
              le_refl _⟩
  | complete_transaction tx_id =>
    cases htx : s.txs tx_id with
    | none => exact ⟨u, by simp [exec, step, htx, h], le_refl _⟩
    | some tx =>
      cases hup : s.users tx.user_phone with
      | none => exact ⟨u, by simp [exec, step, htx, hup, h], le_refl _⟩
      | some user =>
        cases hca : checked_add user.total_volume tx.amount_ngn with
        | none =>
          exact ⟨u,
            by simp [exec, step, htx, hup, complete_transaction, hca, h],
            le_refl _⟩
        | some v =>
          have hv : user.total_volume ≤ v := by
            unfold checked_add at hca
            by_cases hle : user.total_volume + tx.amount_ngn ≤ u64Max
            · rw [if_pos hle] at hca
              cases hca
              exact Nat.le_add_right _ _
            · rw [if_neg hle] at hca
              exact absurd hca (by simp)
          by_cases hpp : p = tx.user_phone
          · refine ⟨{ user with total_volume := v }, ?_, ?_⟩
            · simp [exec, step, htx, hup, complete_transaction, hca, setUser,
                setTx, hpp]
            · have heq : u = user := by
                rw [hpp] at h
                rw [h] at hup
                exact Option.some.inj hup
              rw [heq]
              exact hv
          · refine ⟨u, ?_, le_refl _⟩
            simp [exec, step, htx, hup, complete_transaction, hca, setUser,
              setTx, hpp, h]
  | get_user_balance phone =>
    cases hup : s.users phone with
    | none => exact ⟨u, by simp [exec, step, hup, h], le_refl _⟩
    | some u1 => exact ⟨u, by simp [exec, step, hup, h], le_refl _⟩

/-- C8: `total_volume` never decreases.  `register_user` writes it as 0, and
across any sequence of invocations an existing user record stays present
with a monotonically non-decreasing `total_volume` (each step leaves it
unchanged or, on `complete_transaction`, adds `amount_ngn`). -/
theorem total_volume_monotone :
    (∀ (signer : Pubkey) (now : Int) (phone : Phone) (pin : PinHash),
      (register_user signer now phone pin).total_volume = 0) ∧
    (∀ (ops : List Op) (s : State) (p : Phone) (u : UserAccount),
      s.users p = some u →
      ∃ u2, (execs s ops).users p = some u2 ∧
        u.total_volume ≤ u2.total_volume) := by
  refine ⟨fun _ _ _ _ => rfl, ?_⟩
  intro ops
  induction ops with
  | nil => exact fun s p u h => ⟨u, h, le_refl _⟩
  | cons op ops ih =>
    intro s p u h
    obtain ⟨u1, h1, hle1⟩ := exec_users_mono s op p u h
    obtain ⟨u2, h2, hle2⟩ := ih (exec s op) p u1 h1
    exact ⟨u2, h2, le_trans hle1 hle2⟩

/-- C8, witnessed on a concrete run that completes the pending transaction
for user 2 twice and reads the balance: the user survives with a volume at
least its starting 10. -/
theorem total_volume_monotone_witness :
    ∃ u2, (execs stateTen
        [Op.complete_transaction 1, Op.complete_transaction 1,
          Op.get_user_balance 2]).users 2 = some u2 ∧
      userTen.total_volume ≤ u2.total_volume :=
  total_volume_monotone.2
    [Op.complete_transaction 1, Op.complete_transaction 1,
      Op.get_user_balance 2] stateTen 2 userTen rfl

/-- C9: a successful `register_user` writes exactly the specified record:
phone from the input, wallet from the signer, pin hash from the input,
`total_volume := 0`, the host clock, status `Active` — and the invocation
stores precisely that record at the phone key. -/
theorem register_user_writes_fields (s : State) (signer : Pubkey) (now : Int)
    (phone : Phone) (pin : PinHash) (h : s.users phone = none) :
    register_user signer now phone pin =
      { phone_number := phone, wallet := signer, pin_hash := pin,
        total_volume := 0, registered_at := now,
        status := UserStatus.Active } ∧
    step s (Op.register_user signer now phone pin) =
      Except.ok (setUser s phone (register_user signer now phone pin)) :=
  ⟨rfl, by simp [step, h]⟩

/-- C9, witnessed from the empty state at phone 7. -/
theorem register_user_writes_fields_witness :
    register_user 1 99 7 2 =
      { phone_number := 7, wallet := 1, pin_hash := 2, total_volume := 0,
        registered_at := 99, status := UserStatus.Active } ∧
    step emptyState (Op.register_user 1 99 7 2) =
      Except.ok (setUser emptyState 7 (register_user 1 99 7 2)) :=
  register_user_writes_fields emptyState 1 99 7 2 rfl

/-- C10: a successful `create_transaction` invocation writes only the new
transaction record: the user table (hence every field of every user record,
the mutably declared one included) and the configuration are unchanged. -/
theorem create_transaction_preserves_user (s : State) (now : Int)
    (tx_id : TxId) (user_phone : Phone) (ty : TransactionType) (amt : Nat)
    (usdc : Option Nat) (fee : Nat)
    (h : (step s (Op.create_transaction now tx_id user_phone ty amt usdc
        fee)).isOk = true) :
    (exec s (Op.create_transaction now tx_id user_phone ty amt usdc
        fee)).users = s.users ∧
    (exec s (Op.create_transaction now tx_id user_phone ty amt usdc
        fee)).config = s.config := by
  cases htx : s.txs tx_id with
  | some tx => simp [step, htx, Except.isOk, Except.toBool] at h
  | none =>
    cases hup : s.users user_phone with
    | none => simp [step, htx, hup, Except.isOk, Except.toBool] at h
    | some user =>
      cases hc : s.config with
      | none => simp [step, htx, hup, hc, Except.isOk, Except.toBool] at h
      | some config =>
        cases hcr : create_transaction config user now tx_id user_phone ty
            amt usdc fee with
        | error e =>
          simp [step, htx, hup, hc, hcr, Except.isOk, Except.toBool] at h
        | ok tx =>
          constructor
          · simp [exec, step, htx, hup, hc, hcr, setTx]
          · simp [exec, step, htx, hup, hc, hcr, setTx]

/-- C10, witnessed on a concrete successful creation from `stateTen`. -/
theorem create_transaction_preserves_user_witness :
    (exec stateTen (Op.create_transaction 0 42 2 TransactionType.Crypto 500
        (some 30) 5)).users = stateTen.users ∧
    (exec stateTen (Op.create_transaction 0 42 2 TransactionType.Crypto 500
        (some 30) 5)).config = stateTen.config :=
  create_transaction_preserves_user stateTen 0 42 2 TransactionType.Crypto
    500 (some 30) 5 rfl

end Ouh
